import Mathlib

/-!
Verification of the hospitalization-duration prediction flow.

Shallow embedding of the repository's two source files:
* `src/app.py` — the estimator `predict_stay_length`, the `output` route
  (estimate, persist, precaution sampling, advisory generation with a
  static fallback) and the `main` route's recent-history query;
* `src/models.py` — the `Prediction` / `Precaution` records and `init_db`
  seeding.

Randomness (`np.random.randint`, `random.sample`), the clock
(`current_timestamp`) and the external text generator are injectable
parameters, mirroring the spec's requirement that the randomness source be
injectable for deterministic testing.
-/

namespace HospitalStay

/-- The six intake fields held in `session['detection_data']`
(`src/app.py` lines 145–152). -/
structure PatientData where
  age : Int
  severity : String
  comorbidities : Int
  temperature : String
  blood_pressure : String
  oxygen_saturation : String
deriving DecidableEq

/-- `predict_stay_length` from `src/app.py` lines 27–39.  The value of
`np.random.randint(-1, 3)` is passed in as `jitter` so that the randomness
source is injectable; the half-open draw makes `jitter ∈ {-1, 0, 1, 2}`. -/
def predict_stay_length (patient_data : PatientData) (jitter : Int) : Int :=
  let base_days : Int := 3
  let base_days := if patient_data.age > 65 then base_days + 2 else base_days
  let base_days :=
    if patient_data.severity = "high" then base_days + 3
    else if patient_data.severity = "medium" then base_days + 1
    else base_days
  let base_days := if patient_data.comorbidities > 2 then base_days + 2 else base_days
  max 1 (base_days + jitter)

/-- The estimator exactly as §4.1 of the spec words it (base 3, +2 over
age 65, +3 high / +1 medium, +2 over two comorbidities, then
`max(1, base + jitter)`); written from the spec to be compared against
`predict_stay_length` from the source. -/
def estimate_spec (age : Int) (severity : String) (comorbidity_count : Int)
    (jitter : Int) : Int :=
  max 1 ((3 + (if age > 65 then 2 else 0)
      + (if severity = "high" then 3 else if severity = "medium" then 1 else 0)
      + (if comorbidity_count > 2 then 2 else 0)) + jitter)

/-- Outcome of one invocation of the external text generator: either a list
of generated items (each carrying a `generated_text`) or a raised error. -/
inductive GenOutcome where
  | ok (items : List String)
  | raises
deriving DecidableEq

/-- The fixed 5-element fallback advisory list, verbatim from
`src/app.py` lines 191–201 (identical in the `generator is None` branch and
the `except` branch). -/
def fallback_suggestions : List String :=
  ["Stay hydrated and follow your treatment plan.",
   "Communicate openly with your healthcare team.",
   "Get adequate rest to support your recovery.",
   "Follow all medication instructions precisely.",
   "Report any new symptoms to your nurse immediately."]

/-- The fixed prompt of `src/app.py` line 187. -/
def advisory_prompt : String := "Medical advice for reducing hospital stay: "

/-- The suggestion step of the `output` route (`src/app.py` lines 184–201):
`generator` is the module-level pipeline, `none` when construction at
startup failed; an invocation either returns generated texts (each stripped
of the repeated prompt and whitespace-trimmed) or raises, in which case the
fallback list is used. -/
def compute_suggestions (generator : Option (String → Nat → GenOutcome)) :
    List String :=
  match generator with
  | some g =>
    match g advisory_prompt 5 with
    | GenOutcome.ok generated =>
        generated.map (fun item => ((item.replace advisory_prompt "").trim))
    | GenOutcome.raises => fallback_suggestions
  | none => fallback_suggestions

/-- A row of the `precautions` table (`src/models.py` lines 22–25). -/
structure Precaution where
  id : Nat
  text : String
deriving DecidableEq

/-- A row of the `predictions` table (`src/models.py` lines 27–40):
six intake fields, the predicted day-count, the owning account id and the
creation timestamp (set at persistence time). -/
structure Prediction where
  id : Nat
  user_id : Nat
  age : Int
  severity : String
  comorbidities : Int
  temperature : String
  blood_pressure : String
  oxygen_saturation : String
  predicted_days : Int
  timestamp : Nat
deriving DecidableEq

/-- The Record Store: existing account ids, the precaution rows and the
prediction rows (in insertion order), plus the autoincrement counter for
prediction primary keys. -/
structure Store where
  users : List Nat
  precautions : List Precaution
  predictions : List Prediction
  nextPredictionId : Nat
deriving DecidableEq

/-- Modelled from the spec: the Record Store's commit of a new Prediction
Record.  The storage engine itself is an external collaborator (§1), so its
commit behaviour is taken from the spec: predictions reference an account
with referential integrity (§2; the `ForeignKey('users.id')` declared on
`Prediction.user_id`, `src/models.py` line 30), and a write the store
rejects fails the commit and leaves the store unchanged, producing no
partial record (§4.3 step 3, §8).  On success the row is appended and the
autoincrement counter advances. -/
def commitPrediction (store : Store) (p : Prediction) : Except String Store :=
  if p.user_id ∈ store.users then
    Except.ok { store with
      predictions := store.predictions ++ [p],
      nextPredictionId := store.nextPredictionId + 1 }
  else
    Except.error "IntegrityError"

/-- Selection without replacement: draw `k` elements of `pool`, one at a
time, each drawn element removed from the pool before the next draw; the
position drawn at each step comes from the injected stream `picks`
(reduced modulo the current pool size). -/
def sampleAux {α : Type} : Nat → List α → List Nat → List α
  | 0, _, _ => []
  | _ + 1, [], _ => []
  | k + 1, q :: rest, picks =>
    let pool := q :: rest
    let i := picks.headD 0 % pool.length
    pool.getD i q :: sampleAux k (pool.eraseIdx i) picks.tail

/-- `random.sample(population, k)` as used at `src/app.py` line 181: raises
`ValueError` when `k` exceeds the population size, otherwise returns `k`
elements chosen without replacement, the random choices supplied by
`picks`. -/
def random_sample {α : Type} (population : List α) (k : Nat)
    (picks : List Nat) : Except String (List α) :=
  if k ≤ population.length then Except.ok (sampleAux k population picks)
  else Except.error "Sample larger than population or is negative"

/-- The per-request environment: the jitter drawn for the estimator, the
random stream for `random.sample`, the store clock value used for the new
record's timestamp, and the (possibly absent) external text generator. -/
structure Env where
  jitter : Int
  picks : List Nat
  now : Nat
  generator : Option (String → Nat → GenOutcome)

/-- What the `output` route returns to the client: a redirect to another
endpoint, the rendered result page, or a propagated error (an unhandled
exception in the route). -/
inductive OutputResult where
  | redirect (endpoint : String)
  | page (predicted_days : Int) (precautions : List Precaution)
      (suggestions : List String) (patient_data : PatientData)
  | error (msg : String)
deriving DecidableEq

/-- The Prediction row built at `src/app.py` lines 166–175: all six intake
fields, the computed day-count, the owning account id, the next
autoincrement primary key and the persistence-time timestamp. -/
def recordOf (patient_data : PatientData) (uid : Nat) (store : Store)
    (env : Env) : Prediction :=
  { id := store.nextPredictionId
    user_id := uid
    age := patient_data.age
    severity := patient_data.severity
    comorbidities := patient_data.comorbidities
    temperature := patient_data.temperature
    blood_pressure := patient_data.blood_pressure
    oxygen_saturation := patient_data.oxygen_saturation
    predicted_days := predict_stay_length patient_data env.jitter
    timestamp := env.now }

/-- The `output` route (`src/app.py` lines 156–207).  Takes the session's
`detection_data` slot, the logged-in account id, the store and the request
environment; returns the response, the store afterwards and the session
slot afterwards.  Mirrors the source: guard on missing intake (redirect to
`detection`), estimate, persist (a rejected write propagates as an error
with the store unchanged), sample `min(5, len(precautions))` precautions,
compute suggestions, render; the session slot is never cleared. -/
def output (sess : Option PatientData) (uid : Nat) (store : Store)
    (env : Env) : OutputResult × Store × Option PatientData :=
  match sess with
  | none => (OutputResult.redirect "detection", store, none)
  | some patient_data =>
    let predicted_days := predict_stay_length patient_data env.jitter
    let prediction : Prediction := recordOf patient_data uid store env
    match commitPrediction store prediction with
    | Except.error e => (OutputResult.error e, store, some patient_data)
    | Except.ok store' =>
      match random_sample store'.precautions (min 5 store'.precautions.length)
          env.picks with
      | Except.error e => (OutputResult.error e, store', some patient_data)
      | Except.ok selected_precautions =>
        let suggestions := compute_suggestions env.generator
        (OutputResult.page predicted_days selected_precautions suggestions
            patient_data,
         store', some patient_data)

/-- The store after a successful persist: the new row appended and the
autoincrement counter advanced. -/
def storeAfter (patient_data : PatientData) (uid : Nat) (store : Store)
    (env : Env) : Store :=
  { store with
    predictions := store.predictions ++ [recordOf patient_data uid store env],
    nextPredictionId := store.nextPredictionId + 1 }

/-- The 10 seed precaution strings, verbatim from `src/models.py`
lines 48–59. -/
def seed_precaution_texts : List String :=
  ["Maintain proper hygiene to prevent hospital-acquired infections.",
   "Follow all prescribed medication schedules without missing doses.",
   "Engage in light physical activity as recommended by your healthcare provider.",
   "Ensure adequate hydration and nutrition during your hospital stay.",
   "Communicate openly with your care team about any concerns or symptoms.",
   "Get sufficient rest to support your body's healing process.",
   "Keep your environment clean and sanitized.",
   "Monitor your vital signs regularly as instructed.",
   "Report any new or worsening symptoms immediately.",
   "Follow discharge instructions carefully to prevent readmission."]

/-- `init_db` from `src/models.py` lines 42–62: when the precaution table
holds zero rows, insert the 10 seed strings (primary keys autoincrement
from 1); otherwise leave the store as it is. -/
def init_db (store : Store) : Store :=
  if store.precautions.length = 0 then
    { store with precautions :=
        seed_precaution_texts.enum.map (fun p => { id := p.1 + 1, text := p.2 }) }
  else store

/-- Stable insertion (descending by timestamp): the new row goes in front
of the first row whose timestamp does not exceed it, so among equal
timestamps a later-inserted row sorts first. -/
def insertByTimestampDesc (p : Prediction) : List Prediction → List Prediction
  | [] => [p]
  | q :: rest =>
    if q.timestamp ≤ p.timestamp then p :: q :: rest
    else q :: insertByTimestampDesc p rest

/-- `ORDER BY timestamp DESC` over rows given in insertion order. -/
def orderByTimestampDesc (l : List Prediction) : List Prediction :=
  l.foldl (fun acc p => insertByTimestampDesc p acc) []

/-- The `main` route's history query (`src/app.py` line 137):
`Prediction.query.filter_by(user_id=uid).order_by(Prediction.timestamp.desc()).limit(n)`. -/
def recent_predictions (uid : Nat) (store : Store) (limit : Nat) :
    List Prediction :=
  (orderByTimestampDesc
      (store.predictions.filter (fun p => p.user_id = uid))).take limit

/-- One run of the result view: its session slot, account id and request
environment. -/
structure Request where
  sess : Option PatientData
  uid : Nat
  env : Env

/-- The store after serving one `output` request. -/
def runStep (store : Store) (req : Request) : Store :=
  (output req.sess req.uid store req.env).2.1

/-- The store after serving a sequence of `output` requests. -/
def runAll (store : Store) (reqs : List Request) : Store :=
  reqs.foldl runStep store

/-! ## Concrete fixtures for witness checks -/

/-- A concrete valid intake. -/
def witnessPatient : PatientData :=
  { age := 30, severity := "low", comorbidities := 0,
    temperature := "98.6", blood_pressure := "120/80",
    oxygen_saturation := "95" }

/-- A fully empty concrete store. -/
def emptyStore : Store :=
  { users := [], precautions := [], predictions := [], nextPredictionId := 0 }

/-- A concrete store with one account (id 1) and three distinct
precautions. -/
def witnessStore : Store :=
  { users := [1],
    precautions :=
      [{ id := 1, text := "a" }, { id := 2, text := "b" },
       { id := 3, text := "c" }],
    predictions := [], nextPredictionId := 0 }

/-- A concrete request environment with the generator absent. -/
def witnessEnv : Env :=
  { jitter := 0, picks := [], now := 3, generator := none }

/-- A second concrete environment, clock strictly later. -/
def witnessEnvLater : Env :=
  { jitter := 1, picks := [2], now := 7, generator := none }

/-! ## Helper lemmas -/

theorem predict_stay_length_ge_one (pd : PatientData) (j : Int) :
    1 ≤ predict_stay_length pd j := by
  unfold predict_stay_length
  exact le_max_left _ _

theorem getD_cons_eraseIdx_perm {α : Type} (l : List α) (d : α) (i : Nat)
    (h : i < l.length) : (l.getD i d :: l.eraseIdx i).Perm l := by
  induction l generalizing i with
  | nil => simp at h
  | cons a t ih =>
    cases i with
    | zero => simp
    | succ n =>
      have hn : n < t.length := by simpa using h
      simp only [List.getD_cons_succ, List.eraseIdx_cons_succ]
      exact (List.Perm.swap a _ _).trans ((ih n hn).cons a)

theorem sampleAux_subperm {α : Type} (k : Nat) :
    ∀ (pool : List α) (picks : List Nat),
      (sampleAux k pool picks).Subperm pool := by
  induction k with
  | zero => intro pool picks; simp [sampleAux]
  | succ k ih =>
    intro pool picks
    cases pool with
    | nil => simp [sampleAux]
    | cons q rest =>
      simp only [sampleAux]
      have hlt : picks.headD 0 % (q :: rest).length < (q :: rest).length :=
        Nat.mod_lt _ (by simp)
      have hperm := getD_cons_eraseIdx_perm (q :: rest) q _ hlt
      have hsub := ih ((q :: rest).eraseIdx (picks.headD 0 % (q :: rest).length))
        picks.tail
      exact (((List.subperm_cons _).mpr hsub).trans
        ((List.Subperm.refl _).trans hperm.subperm))

theorem sampleAux_length {α : Type} (k : Nat) :
    ∀ (pool : List α) (picks : List Nat), k ≤ pool.length →
      (sampleAux k pool picks).length = k := by
  induction k with
  | zero => intro pool picks _; simp [sampleAux]
  | succ k ih =>
    intro pool picks hk
    cases pool with
    | nil => simp at hk
    | cons q rest =>
      have hlt : picks.headD 0 % (q :: rest).length < (q :: rest).length :=
        Nat.mod_lt _ (by simp)
      have hrest : k ≤ ((q :: rest).eraseIdx
          (picks.headD 0 % (q :: rest).length)).length := by
        rw [List.length_eraseIdx_of_lt hlt]
        simp only [List.length_cons] at hk ⊢
        omega
      simp only [sampleAux]
      rw [List.length_cons, ih _ picks.tail hrest]

theorem sampleAux_nodup {α : Type} (k : Nat) (pool : List α) (picks : List Nat)
    (h : pool.Nodup) : (sampleAux k pool picks).Nodup := by
  obtain ⟨u, hu, hsub⟩ := sampleAux_subperm k pool picks
  exact hu.nodup (hsub.nodup h)

theorem sampleAux_perm_of_full {α : Type} (pool : List α) (picks : List Nat) :
    (sampleAux pool.length pool picks).Perm pool := by
  refine (sampleAux_subperm pool.length pool picks).perm_of_length_le ?_
  rw [sampleAux_length pool.length pool picks (Nat.le_refl _)]

theorem commitPrediction_ok {store : Store} {p : Prediction}
    (h : p.user_id ∈ store.users) :
    commitPrediction store p = Except.ok { store with
      predictions := store.predictions ++ [p],
      nextPredictionId := store.nextPredictionId + 1 } := by
  unfold commitPrediction
  exact if_pos h

theorem random_sample_min_ok {α : Type} (population : List α)
    (picks : List Nat) :
    random_sample population (min 5 population.length) picks
      = Except.ok (sampleAux (min 5 population.length) population picks) := by
  unfold random_sample
  exact if_pos (Nat.min_le_right _ _)

theorem output_some_success (pd : PatientData) (uid : Nat) (store : Store)
    (env : Env) (h : uid ∈ store.users) :
    output (some pd) uid store env =
      (OutputResult.page (predict_stay_length pd env.jitter)
          (sampleAux (min 5 store.precautions.length) store.precautions
            env.picks)
          (compute_suggestions env.generator) pd,
       storeAfter pd uid store env,
       some pd) := by
  have hcommit : commitPrediction store (recordOf pd uid store env)
      = Except.ok (storeAfter pd uid store env) := commitPrediction_ok h
  simp only [output, storeAfter, hcommit, random_sample_min_ok]

/-! ## Claims -/

/-- C1: for every intake with age in 1..120, severity in {low, medium,
high} and comorbidity count in 0..10, and every jitter in {-1, 0, 1, 2}
drawn from the injectable randomness source, `predict_stay_length` returns
`max(1, base + jitter)` with base = 3, +2 when age > 65, +3 for high
severity (+1 medium, +0 low), +2 when the comorbidity count exceeds 2; in
particular with jitter 0, age 70, high severity and 3 comorbidities the
estimate is 10. -/
theorem C1_estimator_matches_spec :
    (∀ (pd : PatientData) (jitter : Int),
        1 ≤ pd.age → pd.age ≤ 120 →
        (pd.severity = "low" ∨ pd.severity = "medium" ∨ pd.severity = "high") →
        0 ≤ pd.comorbidities → pd.comorbidities ≤ 10 →
        (jitter = -1 ∨ jitter = 0 ∨ jitter = 1 ∨ jitter = 2) →
        predict_stay_length pd jitter
          = estimate_spec pd.age pd.severity pd.comorbidities jitter) ∧
    predict_stay_length
      { age := 70, severity := "high", comorbidities := 3,
        temperature := "98.6", blood_pressure := "120/80",
        oxygen_saturation := "95" } 0 = 10 := by
  refine ⟨fun pd j _ _ _ _ _ _ => ?_, by decide⟩
  unfold predict_stay_length estimate_spec
  dsimp only
  split_ifs <;> omega

/-- C1 witness: the general clause applied to the concrete intake
(age 70, high severity, 3 comorbidities) with jitter 0, together with the
concrete value 10. -/
theorem C1_estimator_matches_spec_witness :
    predict_stay_length
      { age := 70, severity := "high", comorbidities := 3,
        temperature := "98.6", blood_pressure := "120/80",
        oxygen_saturation := "95" } 0 = estimate_spec 70 "high" 3 0 ∧
    predict_stay_length
      { age := 70, severity := "high", comorbidities := 3,
        temperature := "98.6", blood_pressure := "120/80",
        oxygen_saturation := "95" } 0 = 10 :=
  ⟨C1_estimator_matches_spec.1 _ 0 (by decide) (by decide)
      (Or.inr (Or.inr rfl)) (by decide) (by decide) (Or.inr (Or.inl rfl)),
   C1_estimator_matches_spec.2⟩

/-- C6: a result-view request whose session holds no intake redirects to
the intake step and does nothing else: the store is untouched (no record
persisted, hence no estimator result recorded) and the outcome is a
redirect, not an error. -/
theorem C6_missing_intake_redirects (uid : Nat) (store : Store) (env : Env) :
    output none uid store env
      = (OutputResult.redirect "detection", store, none) := rfl

/-- C10: the estimator's output depends only on age, severity and
comorbidity count; two intakes agreeing on those three fields give the same
predicted day-count under the same jitter, whatever their temperature,
blood pressure and oxygen saturation. -/
theorem C10_vitals_noninterference (p1 p2 : PatientData) (jitter : Int)
    (hage : p1.age = p2.age) (hsev : p1.severity = p2.severity)
    (hcom : p1.comorbidities = p2.comorbidities) :
    predict_stay_length p1 jitter = predict_stay_length p2 jitter := by
  unfold predict_stay_length
  rw [hage, hsev, hcom]

/-- C10 witness: two concrete intakes differing in all three vital-sign
fields get the same estimate. -/
theorem C10_vitals_noninterference_witness :
    predict_stay_length
      { age := 50, severity := "medium", comorbidities := 1,
        temperature := "98.6", blood_pressure := "120/80",
        oxygen_saturation := "95" } 1
    = predict_stay_length
      { age := 50, severity := "medium", comorbidities := 1,
        temperature := "103.2", blood_pressure := "90/60",
        oxygen_saturation := "88" } 1 :=
  C10_vitals_noninterference _ _ 1 rfl rfl rfl

theorem runStep_predictions (s : Store) (r : Request) :
    (runStep s r).predictions = s.predictions ∨
    ∃ pd, r.sess = some pd ∧
      (runStep s r).predictions
        = s.predictions ++ [recordOf pd r.uid s r.env] := by
  unfold runStep output
  cases r.sess with
  | none => exact Or.inl rfl
  | some pd =>
    dsimp only
    cases hc : commitPrediction s (recordOf pd r.uid s r.env) with
    | error e => exact Or.inl rfl
    | ok s' =>
      have hs' : s'.predictions = s.predictions ++ [recordOf pd r.uid s r.env] := by
        unfold commitPrediction at hc
        split at hc
        · cases hc
          rfl
        · cases hc
      dsimp only
      cases random_sample s'.precautions (min 5 s'.precautions.length)
          r.env.picks with
      | error e => exact Or.inr ⟨pd, rfl, hs'⟩
      | ok sel => exact Or.inr ⟨pd, rfl, hs'⟩

theorem runStep_pred_ge_one (s : Store) (r : Request)
    (h : ∀ p ∈ s.predictions, 1 ≤ p.predicted_days) :
    ∀ p ∈ (runStep s r).predictions, 1 ≤ p.predicted_days := by
  rcases runStep_predictions s r with heq | ⟨pd, _, heq⟩
  · rw [heq]; exact h
  · rw [heq]
    intro p hp
    rcases List.mem_append.mp hp with hin | hnew
    · exact h p hin
    · rcases List.mem_singleton.mp hnew with rfl
      exact predict_stay_length_ge_one pd r.env.jitter

/-- C2: for every intake and every jitter in {-1, 0, 1, 2} the estimator
returns an integer ≥ 1, and the invariant "every persisted Prediction
Record has predicted day-count ≥ 1" is preserved by every sequence of
result-view runs, so it holds of every record the workflow ever creates. -/
theorem C2_predicted_days_always_ge_one :
    (∀ (pd : PatientData) (jitter : Int),
        (jitter = -1 ∨ jitter = 0 ∨ jitter = 1 ∨ jitter = 2) →
        1 ≤ predict_stay_length pd jitter) ∧
    (∀ (s0 : Store) (reqs : List Request),
        (∀ p ∈ s0.predictions, 1 ≤ p.predicted_days) →
        ∀ p ∈ (runAll s0 reqs).predictions, 1 ≤ p.predicted_days) := by
  constructor
  · intro pd jitter _
    exact predict_stay_length_ge_one pd jitter
  · intro s0 reqs
    induction reqs generalizing s0 with
    | nil => intro h; exact h
    | cons r rs ih =>
      intro h
      exact ih (runStep s0 r) (runStep_pred_ge_one s0 r h)

/-- C2 witness: the estimator clause at a concrete intake with jitter 0,
and the store clause after one concrete run starting from an empty
prediction table, instantiated at the record that run creates. -/
theorem C2_predicted_days_always_ge_one_witness :
    1 ≤ predict_stay_length
      { age := 30, severity := "low", comorbidities := 0,
        temperature := "98.6", blood_pressure := "120/80",
        oxygen_saturation := "95" } 0 ∧
    1 ≤ (recordOf
      { age := 30, severity := "low", comorbidities := 0,
        temperature := "98.6", blood_pressure := "120/80",
        oxygen_saturation := "95" } 1
      { users := [1], precautions := [], predictions := [],
        nextPredictionId := 0 }
      { jitter := 0, picks := [], now := 3,
        generator := none }).predicted_days := by
  constructor
  · exact C2_predicted_days_always_ge_one.1 _ 0 (Or.inr (Or.inl rfl))
  · refine C2_predicted_days_always_ge_one.2
      { users := [1], precautions := [], predictions := [],
        nextPredictionId := 0 }
      [{ sess := some
          { age := 30, severity := "low", comorbidities := 0,
            temperature := "98.6", blood_pressure := "120/80",
            oxygen_saturation := "95" },
         uid := 1,
         env := { jitter := 0, picks := [], now := 3, generator := none } }]
      (by intro p hp; simp at hp) _ ?_
    show _ ∈ (runAll _ _).predictions
    simp [runAll, runStep, output, commitPrediction, random_sample, recordOf]

/-- C3: when the external text generator is unavailable (construction
failed at startup, `generator = none`) or its invocation raises, the
advisory step returns exactly the fixed ordered 5-element fallback list —
the same list on every call (the step is a pure function of the generator)
— and the failure never propagates: with the intake present and the write
accepted, the workflow still completes with a rendered page carrying the
fallback advisories. -/
theorem C3_advisory_fallback (generator : Option (String → Nat → GenOutcome))
    (h : generator = none ∨
      ∃ g, generator = some g ∧ g advisory_prompt 5 = GenOutcome.raises) :
    compute_suggestions generator = fallback_suggestions ∧
    fallback_suggestions =
      ["Stay hydrated and follow your treatment plan.",
       "Communicate openly with your healthcare team.",
       "Get adequate rest to support your recovery.",
       "Follow all medication instructions precisely.",
       "Report any new symptoms to your nurse immediately."] ∧
    ∀ (pd : PatientData) (uid : Nat) (store : Store) (env : Env),
      env.generator = generator → uid ∈ store.users →
      ∃ days sel store',
        output (some pd) uid store env
          = (OutputResult.page days sel fallback_suggestions pd,
             store', some pd) := by
  have hfall : compute_suggestions generator = fallback_suggestions := by
    rcases h with rfl | ⟨g, rfl, hraises⟩
    · rfl
    · simp [compute_suggestions, hraises]
  refine ⟨hfall, rfl, ?_⟩
  intro pd uid store env hgen huid
  refine ⟨predict_stay_length pd env.jitter,
    sampleAux (min 5 store.precautions.length) store.precautions env.picks,
    storeAfter pd uid store env, ?_⟩
  rw [output_some_success pd uid store env huid, hgen, hfall]

/-- C3 witness: the theorem applied to the absent generator
(`generator = none`) and one concrete request. -/
theorem C3_advisory_fallback_witness :
    compute_suggestions none = fallback_suggestions ∧
    fallback_suggestions =
      ["Stay hydrated and follow your treatment plan.",
       "Communicate openly with your healthcare team.",
       "Get adequate rest to support your recovery.",
       "Follow all medication instructions precisely.",
       "Report any new symptoms to your nurse immediately."] ∧
    ∃ days sel store',
      output (some
          { age := 30, severity := "low", comorbidities := 0,
            temperature := "98.6", blood_pressure := "120/80",
            oxygen_saturation := "95" }) 1
        { users := [1], precautions := [], predictions := [],
          nextPredictionId := 0 }
        { jitter := 0, picks := [], now := 3, generator := none }
        = (OutputResult.page days sel fallback_suggestions
            { age := 30, severity := "low", comorbidities := 0,
              temperature := "98.6", blood_pressure := "120/80",
              oxygen_saturation := "95" },
           store', some
            { age := 30, severity := "low", comorbidities := 0,
              temperature := "98.6", blood_pressure := "120/80",
              oxygen_saturation := "95" }) := by
  obtain ⟨h1, h2, h3⟩ := C3_advisory_fallback none (Or.inl rfl)
  exact ⟨h1, h2, h3 _ 1 _ _ rfl (by decide)⟩

/-- C4: a workflow run whose owning account id references no existing
account fails at the persistence step: the result is the propagated
integrity error, not a page, and the store afterwards equals the store
before — no partial or silently-dropped record. -/
theorem C4_integrity_violation (pd : PatientData) (uid : Nat) (store : Store)
    (env : Env) (h : uid ∉ store.users) :
    output (some pd) uid store env
      = (OutputResult.error "IntegrityError", store, some pd) := by
  have hcommit : commitPrediction store (recordOf pd uid store env)
      = Except.error "IntegrityError" := by
    unfold commitPrediction
    exact if_neg h
  simp only [output, hcommit]

/-- C4 witness: the theorem applied to a concrete store that contains no
account with id 7. -/
theorem C4_integrity_violation_witness :
    output (some
        { age := 30, severity := "low", comorbidities := 0,
          temperature := "98.6", blood_pressure := "120/80",
          oxygen_saturation := "95" }) 7
      { users := [1], precautions := [], predictions := [],
        nextPredictionId := 0 }
      { jitter := 0, picks := [], now := 3, generator := none }
      = (OutputResult.error "IntegrityError",
         { users := [1], precautions := [], predictions := [],
           nextPredictionId := 0 },
         some
          { age := 30, severity := "low", comorbidities := 0,
            temperature := "98.6", blood_pressure := "120/80",
            oxygen_saturation := "95" }) :=
  C4_integrity_violation _ 7 _ _ (by decide)

/-- C5: the precaution-selection step never errors: for a store holding
`n` precaution rows it selects `min(5, n)` of them without replacement, so
the selection is duplicate-free (the rows are pairwise distinct), every
selected row is a stored one, and when `n < 5` the selection is all `n`
stored precautions (a permutation of the stored list). -/
theorem C5_precaution_selection (store : Store) (picks : List Nat)
    (hnodup : store.precautions.Nodup) :
    ∃ sel,
      random_sample store.precautions (min 5 store.precautions.length) picks
        = Except.ok sel ∧
      sel.length = min 5 store.precautions.length ∧
      sel.Nodup ∧
      (∀ x ∈ sel, x ∈ store.precautions) ∧
      (store.precautions.length < 5 → sel.Perm store.precautions) := by
  refine ⟨sampleAux (min 5 store.precautions.length) store.precautions picks,
    random_sample_min_ok _ _,
    sampleAux_length _ _ _ (Nat.min_le_right _ _),
    sampleAux_nodup _ _ _ hnodup,
    fun x hx => (sampleAux_subperm _ _ _).subset hx, ?_⟩
  intro hlt
  have hmin : min 5 store.precautions.length = store.precautions.length :=
    Nat.min_eq_right (Nat.le_of_lt hlt)
  rw [hmin]
  exact sampleAux_perm_of_full _ _

/-- C5 witness: the theorem applied to a concrete store holding 3 distinct
precautions and a concrete random stream. -/
theorem C5_precaution_selection_witness :
    ∃ sel,
      random_sample
          ({ users := [1],
             precautions :=
               [{ id := 1, text := "a" }, { id := 2, text := "b" },
                { id := 3, text := "c" }],
             predictions := [], nextPredictionId := 0 } : Store).precautions
          (min 5
            ({ users := [1],
               precautions :=
                 [{ id := 1, text := "a" }, { id := 2, text := "b" },
                  { id := 3, text := "c" }],
               predictions := [], nextPredictionId := 0 } : Store).precautions.length)
          [4, 1]
        = Except.ok sel ∧
      sel.length = min 5
        ({ users := [1],
           precautions :=
             [{ id := 1, text := "a" }, { id := 2, text := "b" },
              { id := 3, text := "c" }],
           predictions := [], nextPredictionId := 0 } : Store).precautions.length ∧
      sel.Nodup ∧
      (∀ x ∈ sel, x ∈
        ({ users := [1],
           precautions :=
             [{ id := 1, text := "a" }, { id := 2, text := "b" },
              { id := 3, text := "c" }],
           predictions := [], nextPredictionId := 0 } : Store).precautions) ∧
      (({ users := [1],
          precautions :=
            [{ id := 1, text := "a" }, { id := 2, text := "b" },
             { id := 3, text := "c" }],
          predictions := [], nextPredictionId := 0 } : Store).precautions.length < 5 →
        sel.Perm
          ({ users := [1],
             precautions :=
               [{ id := 1, text := "a" }, { id := 2, text := "b" },
                { id := 3, text := "c" }],
             predictions := [], nextPredictionId := 0 } : Store).precautions) :=
  C5_precaution_selection _ [4, 1] (by decide)

/-- C8: initializing an empty store seeds exactly the 10 fixed precaution
strings verbatim; seeding happens only when the store holds zero
precautions, so initialization is a no-op on an already-seeded store and
repeating it keeps the precaution set at exactly those 10 strings. -/
theorem C8_seeding_exactly_ten :
    (∀ s : Store, s.precautions = [] →
        (init_db s).precautions.map Precaution.text = seed_precaution_texts ∧
        (init_db s).precautions.length = 10) ∧
    seed_precaution_texts =
      ["Maintain proper hygiene to prevent hospital-acquired infections.",
       "Follow all prescribed medication schedules without missing doses.",
       "Engage in light physical activity as recommended by your healthcare provider.",
       "Ensure adequate hydration and nutrition during your hospital stay.",
       "Communicate openly with your care team about any concerns or symptoms.",
       "Get sufficient rest to support your body's healing process.",
       "Keep your environment clean and sanitized.",
       "Monitor your vital signs regularly as instructed.",
       "Report any new or worsening symptoms immediately.",
       "Follow discharge instructions carefully to prevent readmission."] ∧
    (∀ s : Store, s.precautions ≠ [] → init_db s = s) ∧
    (∀ s : Store, init_db (init_db s) = init_db s) := by
  have hseed : ∀ s : Store, s.precautions = [] →
      (init_db s).precautions
        = seed_precaution_texts.enum.map
            (fun p => ({ id := p.1 + 1, text := p.2 } : Precaution)) := by
    intro s hs
    unfold init_db
    rw [if_pos (by rw [hs]; rfl)]
  have hnoop : ∀ s : Store, s.precautions ≠ [] → init_db s = s := by
    intro s hs
    unfold init_db
    rw [if_neg (fun hc => hs (List.length_eq_zero.mp hc))]
  refine ⟨?_, rfl, hnoop, ?_⟩
  · intro s hs
    rw [hseed s hs]
    exact ⟨rfl, rfl⟩
  · intro s
    by_cases hs : s.precautions = []
    · refine hnoop _ ?_
      rw [hseed s hs]
      decide
    · simp only [hnoop s hs]

/-- C8 witness: the theorem applied to a concrete empty store. -/
theorem C8_seeding_exactly_ten_witness :
    (init_db emptyStore).precautions.map Precaution.text
      = seed_precaution_texts ∧
    (init_db emptyStore).precautions.length = 10 ∧
    init_db (init_db emptyStore) = init_db emptyStore :=
  ⟨(C8_seeding_exactly_ten.1 emptyStore rfl).1,
   (C8_seeding_exactly_ten.1 emptyStore rfl).2,
   C8_seeding_exactly_ten.2.2.2 emptyStore⟩

theorem output_some_session (pd : PatientData) (uid : Nat) (store : Store)
    (env : Env) : (output (some pd) uid store env).2.2 = some pd := by
  unfold output
  dsimp only
  cases commitPrediction store (recordOf pd uid store env) with
  | error e => rfl
  | ok store' =>
    dsimp only
    cases random_sample store'.precautions (min 5 store'.precautions.length)
        env.picks with
    | error e => rfl
    | ok sel => rfl

theorem output_some_not_redirect (pd : PatientData) (uid : Nat)
    (store : Store) (env : Env) (endpoint : String) :
    (output (some pd) uid store env).1 ≠ OutputResult.redirect endpoint := by
  unfold output
  dsimp only
  cases commitPrediction store (recordOf pd uid store env) with
  | error e => intro hc; cases hc
  | ok store' =>
    dsimp only
    cases random_sample store'.precautions (min 5 store'.precautions.length)
        env.picks with
    | error e => intro hc; cases hc
    | ok sel => intro hc; cases hc

/-- C9: a result-view run leaves the Intake Session State unchanged (the
source never clears `session['detection_data']`): after a run with intake
present the same intake is still in the session, so an immediately
repeated result-view request — whatever the store, account and environment
then are — receives the identical intake, does not redirect, and itself
leaves that intake in the session again. -/
theorem C9_session_never_cleared (pd : PatientData) (uid : Nat)
    (store : Store) (env : Env) :
    (output (some pd) uid store env).2.2 = some pd ∧
    ∀ (uid2 : Nat) (store2 : Store) (env2 : Env) (endpoint : String),
      (output ((output (some pd) uid store env).2.2) uid2 store2 env2).1
        ≠ OutputResult.redirect endpoint ∧
      (output ((output (some pd) uid store env).2.2) uid2 store2 env2).2.2
        = some pd := by
  refine ⟨output_some_session pd uid store env, ?_⟩
  intro uid2 store2 env2 endpoint
  rw [output_some_session pd uid store env]
  exact ⟨output_some_not_redirect pd uid2 store2 env2 endpoint,
    output_some_session pd uid2 store2 env2⟩

/-- C9 witness: the theorem at a concrete session, store and environment,
with the no-redirect clause instantiated at the `detection` endpoint. -/
theorem C9_session_never_cleared_witness :
    (output (some witnessPatient) 1 witnessStore witnessEnv).2.2
      = some witnessPatient ∧
    (output ((output (some witnessPatient) 1 witnessStore witnessEnv).2.2) 1
        witnessStore witnessEnvLater).1
      ≠ OutputResult.redirect "detection" ∧
    (output ((output (some witnessPatient) 1 witnessStore witnessEnv).2.2) 1
        witnessStore witnessEnvLater).2.2
      = some witnessPatient :=
  ⟨(C9_session_never_cleared witnessPatient 1 witnessStore witnessEnv).1,
   ((C9_session_never_cleared witnessPatient 1 witnessStore witnessEnv).2 1
      witnessStore witnessEnvLater "detection").1,
   ((C9_session_never_cleared witnessPatient 1 witnessStore witnessEnv).2 1
      witnessStore witnessEnvLater "detection").2⟩

theorem insertByTimestampDesc_front (p : Prediction) (l : List Prediction)
    (h : ∀ q ∈ l, q.timestamp ≤ p.timestamp) :
    insertByTimestampDesc p l = p :: l := by
  cases l with
  | nil => rfl
  | cons q rest =>
    unfold insertByTimestampDesc
    rw [if_pos (h q (List.mem_cons_self q rest))]

theorem mem_of_mem_insertByTimestampDesc {x p : Prediction}
    {l : List Prediction} (hx : x ∈ insertByTimestampDesc p l) :
    x = p ∨ x ∈ l := by
  induction l with
  | nil =>
    simp only [insertByTimestampDesc, List.mem_singleton] at hx
    exact Or.inl hx
  | cons q rest ih =>
    unfold insertByTimestampDesc at hx
    split at hx
    · rcases List.mem_cons.mp hx with rfl | hx'
      · exact Or.inl rfl
      · exact Or.inr hx'
    · rcases List.mem_cons.mp hx with rfl | hx'
      · exact Or.inr (List.mem_cons_self _ _)
      · rcases ih hx' with h1 | h1
        · exact Or.inl h1
        · exact Or.inr (List.mem_cons_of_mem _ h1)

theorem mem_foldl_insertByTimestampDesc :
    ∀ (l acc : List Prediction) (x : Prediction),
      x ∈ l.foldl (fun a p => insertByTimestampDesc p a) acc →
      x ∈ acc ∨ x ∈ l := by
  intro l
  induction l with
  | nil => intro acc x hx; exact Or.inl hx
  | cons p rest ih =>
    intro acc x hx
    simp only [List.foldl_cons] at hx
    rcases ih _ x hx with h1 | h1
    · rcases mem_of_mem_insertByTimestampDesc h1 with rfl | h2
      · exact Or.inr (List.mem_cons_self _ _)
      · exact Or.inl h2
    · exact Or.inr (List.mem_cons_of_mem _ h1)

theorem mem_orderByTimestampDesc {x : Prediction} {l : List Prediction}
    (hx : x ∈ orderByTimestampDesc l) : x ∈ l := by
  rcases mem_foldl_insertByTimestampDesc l [] x hx with h | h
  · cases h
  · exact h

theorem orderByTimestampDesc_append (l m : List Prediction) :
    orderByTimestampDesc (l ++ m)
      = m.foldl (fun a p => insertByTimestampDesc p a)
          (orderByTimestampDesc l) := by
  unfold orderByTimestampDesc
  rw [List.foldl_append]

theorem orderByTimestampDesc_append_two (l : List Prediction)
    (r1 r2 : Prediction)
    (h1 : ∀ q ∈ l, q.timestamp ≤ r1.timestamp)
    (h12 : r1.timestamp ≤ r2.timestamp) :
    orderByTimestampDesc (l ++ [r1, r2])
      = r2 :: r1 :: orderByTimestampDesc l := by
  have hacc : ∀ q ∈ orderByTimestampDesc l, q.timestamp ≤ r1.timestamp :=
    fun q hq => h1 q (mem_orderByTimestampDesc hq)
  have hacc2 : ∀ q ∈ r1 :: orderByTimestampDesc l,
      q.timestamp ≤ r2.timestamp := by
    intro q hq
    rcases List.mem_cons.mp hq with rfl | hq'
    · exact h12
    · exact (hacc q hq').trans h12
  rw [orderByTimestampDesc_append]
  simp only [List.foldl_cons, List.foldl_nil]
  rw [insertByTimestampDesc_front r1 _ hacc,
    insertByTimestampDesc_front r2 _ hacc2]

theorem storeAfter_predictions (pd : PatientData) (uid : Nat)
    (store : Store) (env : Env) :
    (storeAfter pd uid store env).predictions
      = store.predictions ++ [recordOf pd uid store env] := rfl

/-- C7: running the workflow twice for the same account — with the store
clock non-decreasing, so every earlier record of that account is no later
than the first run and the first run no later than the second — creates
two distinct Prediction Records (distinct primary keys, timestamps set at
persistence time, non-decreasing in creation order), both appended to the
prediction table, and the recent-history lookup for that account returns
both, ordered most-recent-first. -/
theorem C7_two_runs_history (s : Store) (uid : Nat) (pd1 pd2 : PatientData)
    (e1 e2 : Env) (huid : uid ∈ s.users)
    (hpast : ∀ p ∈ s.predictions, p.user_id = uid → p.timestamp ≤ e1.now)
    (hclock : e1.now ≤ e2.now) :
    ∃ r1 r2 rest,
      r1 ≠ r2 ∧ r1.id ≠ r2.id ∧
      r1.timestamp = e1.now ∧ r2.timestamp = e2.now ∧
      r1.timestamp ≤ r2.timestamp ∧
      ((output (some pd2) uid ((output (some pd1) uid s e1).2.1) e2).2.1).predictions
        = s.predictions ++ [r1, r2] ∧
      recent_predictions uid
          ((output (some pd2) uid ((output (some pd1) uid s e1).2.1) e2).2.1) 5
        = r2 :: r1 :: rest := by
  rw [output_some_success pd1 uid s e1 huid]
  dsimp only
  rw [output_some_success pd2 uid (storeAfter pd1 uid s e1) e2 huid]
  dsimp only
  refine ⟨recordOf pd1 uid s e1,
    recordOf pd2 uid (storeAfter pd1 uid s e1) e2,
    (orderByTimestampDesc
      (s.predictions.filter (fun p => p.user_id = uid))).take 3,
    ?_, ?_, rfl, rfl, hclock, ?_, ?_⟩
  · intro hc
    have hid := congrArg Prediction.id hc
    simp only [recordOf, storeAfter] at hid
    omega
  · simp only [recordOf, storeAfter]
    omega
  · simp [storeAfter]
  · unfold recent_predictions
    rw [storeAfter_predictions, storeAfter_predictions]
    rw [show (s.predictions ++ [recordOf pd1 uid s e1]) ++
        [recordOf pd2 uid (storeAfter pd1 uid s e1) e2]
        = s.predictions ++
          [recordOf pd1 uid s e1,
           recordOf pd2 uid (storeAfter pd1 uid s e1) e2] by simp]
    rw [List.filter_append]
    rw [show List.filter (fun p => decide (p.user_id = uid))
        [recordOf pd1 uid s e1,
         recordOf pd2 uid (storeAfter pd1 uid s e1) e2]
        = [recordOf pd1 uid s e1,
           recordOf pd2 uid (storeAfter pd1 uid s e1) e2] by
      simp [recordOf]]
    rw [orderByTimestampDesc_append_two _ _ _ ?_ hclock]
    · rw [List.take_succ_cons, List.take_succ_cons]
    · intro q hq
      have hq' := List.mem_filter.mp hq
      exact hpast q hq'.1 (of_decide_eq_true hq'.2)

/-- C7 witness: the theorem at a concrete store with one account and no
prior records, clock values 3 then 7. -/
theorem C7_two_runs_history_witness :
    ∃ r1 r2 rest,
      r1 ≠ r2 ∧ r1.id ≠ r2.id ∧
      r1.timestamp = witnessEnv.now ∧ r2.timestamp = witnessEnvLater.now ∧
      r1.timestamp ≤ r2.timestamp ∧
      ((output (some witnessPatient) 1
          ((output (some witnessPatient) 1 witnessStore witnessEnv).2.1)
          witnessEnvLater).2.1).predictions
        = witnessStore.predictions ++ [r1, r2] ∧
      recent_predictions 1
          ((output (some witnessPatient) 1
            ((output (some witnessPatient) 1 witnessStore witnessEnv).2.1)
            witnessEnvLater).2.1) 5
        = r2 :: r1 :: rest :=
  C7_two_runs_history witnessStore 1 witnessPatient witnessPatient
    witnessEnv witnessEnvLater (by decide)
    (by intro p hp; simp [witnessStore] at hp) (by decide)
